import Mathlib

/-!
Verification of the specification of the ionic UI/navigation repository.

The repository fragment under verification contains the `Content` component
(scroll area), the `Checkbox` form control, the `Scroll` component, and the
end-to-end test page for the navigation stack.  The navigation engine itself
(`NavController` / `ViewController` / overlay portal) is not present in source
form — only its callers are — so, following the spec (§2), the nav-engine
definitions below are modelled from the spec's contract; the `Content` and
`Checkbox` definitions are shallow embeddings of the TypeScript source.

Views are identified by their opaque id (`Nat`); stacks are lists with
index 0 = root and the last element = top (active view).
-/

namespace Ionic

/-! ## Definitions: navigation stack operations (modelled from the spec) -/

/-- Modelled from the spec: the stack-mutating operations exposed by
`NavController` (§4.1): push, pop, popToRoot, insert, remove, setRoot,
setPages.  Views are carried by id. -/
inductive NavOp : Type
  | push (v : Nat)
  | pop
  | popToRoot
  | insert (i : Nat) (v : Nat)
  | remove (start count : Nat)
  | setRoot (v : Nat)
  | setPages (vs : List Nat)
deriving DecidableEq, Repr

/-- Modelled from the spec: the effect of one settled operation on the view
stack (§4.1).  `push` appends above the top; `pop` removes the top unless only
the root remains (§7 `EmptyStackError` avoidance: no-op success on a
single-entry stack, and likewise for `remove`); `popToRoot` keeps index 0;
`insert i v` splices at `i`; `remove start count` drops `count` entries from
`start`; `setRoot` and `setPages` replace the whole stack. -/
def applyOp (s : List Nat) : NavOp → List Nat
  | .push v => s ++ [v]
  | .pop => if s.length ≤ 1 then s else s.dropLast
  | .popToRoot => s.take 1
  | .insert i v => s.take i ++ v :: s.drop i
  | .remove start count => if s.length ≤ 1 then s else s.take start ++ s.drop (start + count)
  | .setRoot v => [v]
  | .setPages vs => vs

/-- Modelled from the spec: the queueing state of one `NavController` outlet
(§5): the settled stack, the FIFO queue of operations requested while a
transition was in flight, and whether a transition is currently running. -/
structure NavState : Type where
  stack : List Nat
  queue : List NavOp
  busy : Bool
deriving DecidableEq, Repr

/-- A freshly-settled outlet: no transition in flight, empty queue. -/
def NavState.idle (s : List Nat) : NavState :=
  ⟨s, [], false⟩

/-- Modelled from the spec: requesting a stack-mutating operation (§4.1, §5).
If a transition is in flight the operation is appended to the FIFO queue;
otherwise it is applied at once and a transition starts. -/
def NavState.request (st : NavState) (op : NavOp) : NavState :=
  if st.busy then { st with queue := st.queue ++ [op] }
  else { st with stack := applyOp st.stack op, busy := true }

/-- Modelled from the spec: the in-flight transition settles (§5).  The next
queued operation, if any, is dequeued and applied, starting the next
transition; otherwise the outlet becomes idle. -/
def NavState.settleOne (st : NavState) : NavState :=
  match st.queue with
  | [] => { st with busy := false }
  | op :: rest => { stack := applyOp st.stack op, queue := rest, busy := true }

/-- Fuelled settling loop: run `settleOne` while a transition is in flight.
The fuel only needs to exceed the queue length. -/
def drainAux : Nat → NavState → NavState
  | 0, st => st
  | n + 1, st => if st.busy then drainAux n st.settleOne else st

/-- Let every pending transition settle. -/
def NavState.drain (st : NavState) : NavState :=
  drainAux (st.queue.length + 1) st

/-- Request a whole list of operations back-to-back, in order. -/
def NavState.requestAll (st : NavState) (ops : List NavOp) : NavState :=
  ops.foldl NavState.request st

/-! ## Definitions: lifecycle hook traces (modelled from the spec) -/

/-- Modelled from the spec: the lifecycle hook invocations observable during
a transition (§4.1, §6), each carrying the id of the view it fires on, plus
the animation step. -/
inductive Ev : Type
  | willLeave (v : Nat)
  | willEnter (v : Nat)
  | animate
  | didEnter (v : Nat)
  | didLeave (v : Nat)
  | willUnload (v : Nat)
  | didUnload (v : Nat)
deriving DecidableEq, Repr

/-- The fixed hook order stated by the spec (§4.1), written from the spec's
own words for comparison with the engine model: willLeave(leaving) →
willEnter(entering) → animate → didEnter(entering) → didLeave(leaving) →
(if destroyed) willUnload(leaving) → didUnload(leaving). -/
def canonicalTrace (l e : Nat) (destroyed : Bool) : List Ev :=
  [.willLeave l, .willEnter e, .animate, .didEnter e, .didLeave l]
    ++ (if destroyed then [.willUnload l, .didUnload l] else [])

/-- Modelled from the spec: the hook trace of one transition from stack
`oldS` to stack `newS` (§4.1).  The leaving view is the old top, the
entering view the new top; nothing fires when the top is unchanged; the
unload hooks fire exactly when the leaving view left the stack (destroyed,
not merely covered). -/
def transitionTrace (oldS newS : List Nat) : List Ev :=
  match oldS.getLast?, newS.getLast? with
  | some l, some e =>
      if l = e then []
      else
        [.willLeave l, .willEnter e] ++ [.animate] ++ [.didEnter e, .didLeave l]
          ++ (if l ∈ newS then [] else [.willUnload l, .didUnload l])
  | none, some e => [.willEnter e, .animate, .didEnter e]
  | _, _ => []

/-- Whether `op` is an insert at a position other than the current top index,
which the spec (§4.1) says triggers no visible transition. -/
def isNonTopInsert (s : List Nat) : NavOp → Bool
  | .insert i _ => i != s.length - 1
  | _ => false

/-- Modelled from the spec: execute one settled operation, returning the new
stack together with the lifecycle hook trace of the transition it ran
(§4.1).  An insert away from the top runs no visible transition; every other
operation transitions from the old top to the new top (which is silent when
the top view is unchanged, e.g. a pop on a single-entry stack). -/
def execOp (s : List Nat) (op : NavOp) : List Nat × List Ev :=
  let t := applyOp s op
  if isNonTopInsert s op then (t, []) else (t, transitionTrace s t)

/-! ## Definitions: constructibility check (modelled from the spec) -/

/-- Modelled from the spec: the errors of §7.  Only `InvalidViewError` is
raised; empty-stack conditions are defined as no-op successes. -/
inductive NavError : Type
  | invalidView
deriving DecidableEq, Repr

/-- Modelled from the spec: whether the view reference carried by an
operation resolves to a constructible page in the registry (§7, §9):
only push/setRoot/insert carry a single view reference to resolve. -/
def opConstructible (reg : Nat → Bool) : NavOp → Bool
  | .push v => reg v
  | .setRoot v => reg v
  | .insert _ v => reg v
  | _ => true

/-- Modelled from the spec: requesting an operation with the constructibility
check of §7.  An unconstructible view reference raises `InvalidViewError`
synchronously and the operation is never queued: the state is returned
untouched. -/
def requestChecked (reg : Nat → Bool) (op : NavOp) (st : NavState) :
    NavState × Option NavError :=
  if opConstructible reg op then (st.request op, none)
  else (st, some .invalidView)

/-! ## Definitions: overlay portal and button handlers (modelled from the spec) -/

/-- Modelled from the spec: the value an alert button handler returns to the
overlay machinery (§4.3).  JavaScript-wise, only the exact value `false`
suppresses the default auto-dismiss; `true`, `undefined` (returning
nothing), `null` and any other value allow it. -/
inductive JSRet : Type
  | retFalse
  | retTrue
  | retUndefined
  | retNull
  | retOther
deriving DecidableEq, Repr

/-- Whether the handler's return value allows the overlay's default
auto-dismiss: everything except the exact value `false` does (§4.3). -/
def allowsDismiss : JSRet → Bool
  | .retFalse => false
  | _ => true

/-- Modelled from the spec: the application root's overlay portal, a tiny
stack that only ever pushes and pops overlay view controllers (§4.3). -/
structure Portal : Type where
  stack : List Nat
deriving DecidableEq, Repr

/-- Present an overlay: push its view controller onto the portal stack. -/
def Portal.present (p : Portal) (a : Nat) : Portal :=
  ⟨p.stack ++ [a]⟩

/-- Dismiss an overlay: remove its view controller from the portal stack. -/
def Portal.dismiss (p : Portal) (a : Nat) : Portal :=
  ⟨p.stack.filter (fun x => x ≠ a)⟩

/-- Modelled from the spec: clicking an overlay button runs its handler and
then performs the default auto-dismiss unless the handler returned exactly
`false` (§4.3). -/
def Portal.clickButton (p : Portal) (a : Nat) (ret : JSRet) : Portal :=
  if allowsDismiss ret then p.dismiss a else p

/-! ## Definitions: Checkbox (embedded from src/src/components/checkbox/checkbox.ts) -/

/-- The state of a `Checkbox` relevant to its change events: the stored
`_checked` flag, the `_init` flag set by `ngAfterContentInit`, and the log
of values at which `ionChange` was emitted (each emission carries the
checkbox whose `_checked` is the logged value). -/
structure CheckboxState : Type where
  _checked : Bool
  _init : Bool
  ionChangeLog : List Bool
deriving DecidableEq, Repr

/-- Embedded from `Checkbox._setChecked` (checkbox.ts lines 128–136): if the
incoming boolean differs from `_checked`, store it and, when `_init` is set,
emit `ionChange`; otherwise do nothing.  The `_item` CSS-class update is
presentation only and carries no state here. -/
def CheckboxState._setChecked (cb : CheckboxState) (isChecked : Bool) : CheckboxState :=
  if isChecked ≠ cb._checked then
    { cb with
      _checked := isChecked,
      ionChangeLog := if cb._init then cb.ionChangeLog ++ [isChecked] else cb.ionChangeLog }
  else cb

/-- Embedded from `Checkbox.onChange` (checkbox.ts lines 179–184), the
variant used when no `ngModel` is attached: `_setChecked` then `onTouched`
(which is a state no-op). -/
def CheckboxState.onChange (cb : CheckboxState) (isChecked : Bool) : CheckboxState :=
  cb._setChecked isChecked

/-- Embedded from the `checked` setter (checkbox.ts lines 120–123):
`_setChecked(isTrueProperty(val))` followed by `onChange(_checked)`.  The
normalization function `isTrueProperty` lives outside the provided sources,
so it is passed in as a parameter. -/
def CheckboxState.checkedSet {α : Type} (isTrueProperty : α → Bool) (val : α)
    (cb : CheckboxState) : CheckboxState :=
  let cb1 := cb._setChecked (isTrueProperty val)
  cb1.onChange cb1._checked

/-- Embedded from `Checkbox.writeValue` (checkbox.ts lines 141–143):
`_setChecked(isTrueProperty(val))`. -/
def CheckboxState.writeValue {α : Type} (isTrueProperty : α → Bool) (val : α)
    (cb : CheckboxState) : CheckboxState :=
  cb._setChecked (isTrueProperty val)

/-- Embedded from `Checkbox.ngAfterContentInit` (checkbox.ts lines 194–196):
set `_init`. -/
def CheckboxState.ngAfterContentInit (cb : CheckboxState) : CheckboxState :=
  { cb with _init := true }

/-! ## Definitions: Content dimensions (embedded from the unnamed Content source) -/

/-- The DOM measurements `Content.getContentDimensions` reads: the scroll
element's parent offsets and the scroll element's scroll metrics. -/
structure ContentElems : Type where
  parentOffsetHeight : Int
  parentOffsetTop : Int
  parentOffsetWidth : Int
  parentOffsetLeft : Int
  scrollHeight : Int
  scrollTop : Int
  scrollWidth : Int
  scrollLeft : Int
deriving DecidableEq, Repr

/-- The record returned by `Content.getContentDimensions`. -/
structure ContentDimensions : Type where
  contentHeight : Int
  contentTop : Int
  contentBottom : Int
  contentWidth : Int
  contentLeft : Int
  contentRight : Int
  scrollHeight : Int
  scrollTop : Int
  scrollBottom : Int
  scrollWidth : Int
  scrollLeft : Int
  scrollRight : Int
deriving DecidableEq, Repr

/-- Embedded from `Content.getContentDimensions` (unnamed Content source,
lines 409–430): each `*Bottom`/`*Right` field is computed as the matching
top/left plus height/width. -/
def getContentDimensions (e : ContentElems) : ContentDimensions :=
  { contentHeight := e.parentOffsetHeight
    contentTop := e.parentOffsetTop
    contentBottom := e.parentOffsetTop + e.parentOffsetHeight
    contentWidth := e.parentOffsetWidth
    contentLeft := e.parentOffsetLeft
    contentRight := e.parentOffsetLeft + e.parentOffsetWidth
    scrollHeight := e.scrollHeight
    scrollTop := e.scrollTop
    scrollBottom := e.scrollTop + e.scrollHeight
    scrollWidth := e.scrollWidth
    scrollLeft := e.scrollLeft
    scrollRight := e.scrollLeft + e.scrollWidth }

/-! ## Definitions: Content event listeners (embedded from the unnamed Content source) -/

/-- A DOM element's registered event listeners, as (event type, handler id)
pairs.  Per the DOM, `addEventListener` is a no-op on an already-registered
(type, handler) pair and `removeEventListener` removes the matching
registration. -/
structure Elem : Type where
  listeners : List (String × Nat)
deriving DecidableEq, Repr

/-- DOM `removeEventListener`: drop the registration of (t, h). -/
def Elem.removeEventListener (e : Elem) (t : String) (h : Nat) : Elem :=
  ⟨e.listeners.filter (fun p => p ≠ (t, h))⟩

/-- DOM `addEventListener`: register (t, h) unless already registered. -/
def Elem.addEventListener (e : Elem) (t : String) (h : Nat) : Elem :=
  if (t, h) ∈ e.listeners then e else ⟨e.listeners ++ [(t, h)]⟩

/-- The listener-related state of a `Content` instance: its `_scrollEle`,
absent before `ngOnInit` or after `ngOnDestroy`. -/
structure ContentListeners : Type where
  _scrollEle : Option Elem
deriving DecidableEq, Repr

/-- The listeners registered on the scroll element, empty when absent. -/
def ContentListeners.listeners (c : ContentListeners) : List (String × Nat) :=
  match c._scrollEle with
  | none => []
  | some e => e.listeners

/-- Embedded from `Content._addListener` (unnamed Content source, lines
235–247): return undefined (`none`) when the scroll element is absent;
otherwise remove the handler first ("ensure we're not creating duplicates"),
add it, and return a remover for exactly this (type, handler) pair — reified
here as the pair itself, run by `ContentListeners.runRemove`. -/
def ContentListeners._addListener (c : ContentListeners) (type : String) (handler : Nat) :
    ContentListeners × Option (String × Nat) :=
  match c._scrollEle with
  | none => (c, none)
  | some e =>
      (⟨some ((e.removeEventListener type handler).addEventListener type handler)⟩,
        some (type, handler))

/-- The closure returned by `_addListener`: if the scroll element is still
present, remove the registered (type, handler) pair from it. -/
def ContentListeners.runRemove (c : ContentListeners) (r : String × Nat) : ContentListeners :=
  match c._scrollEle with
  | none => c
  | some e => ⟨some (e.removeEventListener r.1 r.2)⟩

/-- Embedded from `Content.addScrollListener` (unnamed Content source, lines
189–191): `_addListener('scroll', handler)`. -/
def ContentListeners.addScrollListener (c : ContentListeners) (handler : Nat) :
    ContentListeners × Option (String × Nat) :=
  c._addListener "scroll" handler

/-! ## Helper lemmas -/

theorem drainAux_spec (n : Nat) (st : NavState) (hn : st.queue.length < n)
    (hb : st.busy = true) :
    drainAux n st = NavState.idle (st.queue.foldl applyOp st.stack) := by
  induction n generalizing st with
  | zero => omega
  | succ n ih =>
    cases hq : st.queue with
    | nil =>
      simp only [drainAux, hb, if_true]
      have hs : st.settleOne = ⟨st.stack, [], false⟩ := by
        simp [NavState.settleOne, hq]
      rw [hs]
      cases n with
      | zero => simp [drainAux, NavState.idle, hq]
      | succ m => simp [drainAux, NavState.idle, hq]
    | cons op rest =>
      simp only [drainAux, hb, if_true]
      have hs : st.settleOne = ⟨applyOp st.stack op, rest, true⟩ := by
        simp [NavState.settleOne, hq]
      rw [hs, ih ⟨applyOp st.stack op, rest, true⟩ (by simp; simp [hq] at hn; omega) rfl]
      simp [hq]

theorem requestAll_busy (ops : List NavOp) (st : NavState) (hb : st.busy = true) :
    st.requestAll ops = { st with queue := st.queue ++ ops } := by
  induction ops generalizing st with
  | nil => simp [NavState.requestAll]
  | cons op rest ih =>
    have h1 : st.request op = { st with queue := st.queue ++ [op] } := by
      simp [NavState.request, hb]
    have : st.requestAll (op :: rest) = (st.request op).requestAll rest := by
      simp [NavState.requestAll]
    rw [this, h1, ih _ (by simpa using hb)]
    simp

/-- The stack reached after requesting `ops` back-to-back against a settled
stack `s` and letting every transition settle is `ops.foldl applyOp s`. -/
theorem drain_requestAll (ops : List NavOp) (s : List Nat) :
    ((NavState.idle s).requestAll ops).drain = NavState.idle (ops.foldl applyOp s) := by
  cases ops with
  | nil =>
    simp [NavState.requestAll, NavState.drain, drainAux, NavState.idle]
  | cons op rest =>
    have h1 : (NavState.idle s).request op = ⟨applyOp s op, [], true⟩ := by
      simp [NavState.request, NavState.idle]
    have h2 : (NavState.idle s).requestAll (op :: rest)
        = (⟨applyOp s op, [], true⟩ : NavState).requestAll rest := by
      simp [NavState.requestAll, h1]
    rw [NavState.drain, h2, requestAll_busy rest _ rfl]
    simp only []
    rw [drainAux_spec _ _ (by simp) rfl]
    simp [List.foldl]

/-- A transition whose old and new tops agree runs no hooks. -/
theorem transitionTrace_self (s : List Nat) : transitionTrace s s = [] := by
  cases hg : s.getLast? <;> simp [transitionTrace, hg]

/-- A transition with distinct old top `l` and new top `e` runs exactly the
canonical hook sequence, destroying `l` exactly when it left the stack. -/
theorem transitionTrace_eq (oldS newS : List Nat) (l e : Nat)
    (hl : oldS.getLast? = some l) (he : newS.getLast? = some e) (hne : l ≠ e) :
    transitionTrace oldS newS = canonicalTrace l e (decide (l ∉ newS)) := by
  by_cases hc : l ∈ newS <;>
    simp [transitionTrace, hl, he, hne, canonicalTrace, hc]

/-- Removing a (type, handler) registration right after re-adding it lands on
the same element as just removing it: the add appends exactly one copy of the
pair to a list that no longer holds it. -/
theorem removeEventListener_addEventListener (e : Elem) (t : String) (h : Nat) :
    ((e.removeEventListener t h).addEventListener t h).removeEventListener t h
      = e.removeEventListener t h := by
  have hmem : (t, h) ∉ (e.removeEventListener t h).listeners := by
    simp [Elem.removeEventListener, List.mem_filter]
  simp only [Elem.addEventListener, hmem, if_neg]
  simp [Elem.removeEventListener, List.filter_append, List.filter_filter]

/-! ## Claim theorems -/

/-- C1: operations requested while a transition is in flight are queued FIFO
and applied after the in-flight transition settles, and for every sequence of
stack-mutating operations requested back-to-back against one settled outlet,
the final stack equals the fold of the operations, in request order, over the
settled stack. -/
theorem nav_queue_fifo_determinism :
    (∀ (st : NavState) (op : NavOp), st.busy = true →
      (st.request op).stack = st.stack ∧ (st.request op).queue = st.queue ++ [op]) ∧
    (∀ (ops : List NavOp) (s : List Nat),
      ((NavState.idle s).requestAll ops).drain.stack = ops.foldl applyOp s) := by
  constructor
  · intro st op hb
    constructor <;> simp [NavState.request, hb]
  · intro ops s
    rw [drain_requestAll]
    rfl

/-- Witness for C1 at a concrete input: a pop requested while busy is queued
and leaves the stack alone, and push-push-pop from root `[0]` ends at `[0, 1]`. -/
theorem nav_queue_fifo_determinism_witness :
    ((NavState.mk [0, 1] [] true).request .pop).stack = [0, 1] ∧
    ((NavState.mk [0, 1] [] true).request .pop).queue = [.pop] ∧
    ((NavState.idle [0]).requestAll [.push 1, .push 2, .pop]).drain.stack = [0, 1] := by
  refine ⟨(nav_queue_fifo_determinism.1 _ .pop rfl).1,
    (nav_queue_fifo_determinism.1 _ .pop rfl).2, ?_⟩
  rw [nav_queue_fifo_determinism.2 [.push 1, .push 2, .pop] [0]]
  decide

/-- C2: for every single transition executed by an operation on a stack with
old top `l` and new top `e ≠ l`, the hook trace is exactly the canonical
order willLeave(l), willEnter(e), animate, didEnter(e), didLeave(l), with
willUnload(l) then didUnload(l) appended if and only if `l` was removed from
the stack (destroyed) rather than merely covered; inserts away from the top
run no transition at all. -/
theorem lifecycle_hook_order (s : List Nat) (op : NavOp) (l e : Nat)
    (hl : s.getLast? = some l) (he : (applyOp s op).getLast? = some e) (hne : l ≠ e) :
    (execOp s op).1 = applyOp s op ∧
    (execOp s op).2 =
      (if isNonTopInsert s op then []
       else canonicalTrace l e (decide (l ∉ applyOp s op))) := by
  cases h : isNonTopInsert s op <;> simp [execOp, h]
  simpa using transitionTrace_eq s (applyOp s op) l e hl he hne

/-- Witness for C2 at a concrete input: popping `[1, 2]` transitions from
leaving view 2 to entering view 1 with the canonical trace, destroying 2. -/
theorem lifecycle_hook_order_witness :
    (execOp [1, 2] .pop).1 = applyOp [1, 2] .pop ∧
    (execOp [1, 2] .pop).2 =
      (if isNonTopInsert [1, 2] .pop then []
       else canonicalTrace 2 1 (decide (2 ∉ applyOp [1, 2] .pop))) :=
  lifecycle_hook_order [1, 2] .pop 2 1 (by decide) (by decide) (by decide)

/-- C3: on a stack of depth 1 (only the root remains), pop and remove are
no-op successes: the stack is unchanged, no hook fires (no transition runs),
the checked request raises no error, and the settled stack still equals the
root stack. -/
theorem pop_remove_singleton_noop (s : List Nat) (h : s.length = 1) :
    execOp s .pop = (s, []) ∧
    (∀ i c : Nat, execOp s (.remove i c) = (s, [])) ∧
    (∀ reg : Nat → Bool,
      requestChecked reg .pop (NavState.idle s) = ((NavState.idle s).request .pop, none)) ∧
    ((NavState.idle s).request .pop).drain.stack = s := by
  have hpop : applyOp s .pop = s := by simp [applyOp, h]
  refine ⟨?_, ?_, ?_, ?_⟩
  · simp [execOp, isNonTopInsert, hpop, transitionTrace_self]
  · intro i c
    have hrem : applyOp s (.remove i c) = s := by simp [applyOp, h]
    simp [execOp, isNonTopInsert, hrem, transitionTrace_self]
  · intro reg
    simp [requestChecked, opConstructible]
  · simp [NavState.request, NavState.idle, NavState.drain, drainAux, NavState.settleOne, hpop]

/-- Witness for C3 at the concrete singleton stack `[7]`. -/
theorem pop_remove_singleton_noop_witness :
    execOp [7] .pop = ([7], []) ∧
    execOp [7] (.remove 0 1) = ([7], []) ∧
    requestChecked (fun _ => true) .pop (NavState.idle [7])
      = ((NavState.idle [7]).request .pop, none) ∧
    ((NavState.idle [7]).request .pop).drain.stack = [7] := by
  have h := pop_remove_singleton_noop [7] (by decide)
  exact ⟨h.1, h.2.1 0 1, h.2.2.1 _, h.2.2.2⟩

/-- C4: `setPages [A, B]` replaces the whole stack by exactly `[A, B]`, its
transition animates at most once and its enter hooks target only the final
page B, and an immediately following pop settles on the stack `[A]` whose
active view is A. -/
theorem setPages_then_pop (s : List Nat) (A B : Nat) :
    ((NavState.idle s).requestAll [.setPages [A, B], .pop]).drain.stack = [A] ∧
    (((NavState.idle s).requestAll [.setPages [A, B], .pop]).drain.stack).getLast? = some A ∧
    applyOp s (.setPages [A, B]) = [A, B] ∧
    (execOp s (.setPages [A, B])).2.count .animate ≤ 1 ∧
    (∀ x : Nat, Ev.willEnter x ∈ (execOp s (.setPages [A, B])).2 → x = B) ∧
    (∀ x : Nat, Ev.didEnter x ∈ (execOp s (.setPages [A, B])).2 → x = B) := by
  have hstack : ((NavState.idle s).requestAll [.setPages [A, B], .pop]).drain.stack = [A] := by
    rw [drain_requestAll]
    simp [applyOp, List.dropLast, NavState.idle]
  refine ⟨hstack, by rw [hstack]; rfl, rfl, ?_, ?_, ?_⟩ <;>
    cases hg : s.getLast? with
  | _ =>
    first
    | (simp [execOp, isNonTopInsert, applyOp, transitionTrace, hg, canonicalTrace]
       try (intro x hx)
       try (split_ifs <;> simp_all)
       try simp_all)

/-- Witness for C4 at the concrete root stack `[9]` with pages A = 1, B = 2,
instantiating the enter-hook clause at the entering view 2. -/
theorem setPages_then_pop_witness :
    ((NavState.idle [9]).requestAll [.setPages [1, 2], .pop]).drain.stack = [1] ∧
    applyOp [9] (.setPages [1, 2]) = [1, 2] ∧
    (2 : Nat) = 2 := by
  have h := setPages_then_pop [9] 1 2
  exact ⟨h.1, h.2.2.1, h.2.2.2.2.1 2 (by decide)⟩

/-- C5: inserting at index equal to the current stack length yields the same
stack as a push (the view appended above the previous top), and for every
index other than the current top index the insert splices the view at that
position and triggers no visible transition (its hook trace is empty). -/
theorem insert_at_length_is_push (s : List Nat) (i v : Nat) (hi : i ≠ s.length - 1) :
    applyOp s (.insert s.length v) = applyOp s (.push v) ∧
    applyOp s (.insert i v) = s.take i ++ v :: s.drop i ∧
    (execOp s (.insert i v)).1 = s.take i ++ v :: s.drop i ∧
    (execOp s (.insert i v)).2 = [] := by
  refine ⟨by simp [applyOp], rfl, ?_, ?_⟩
  · cases h : isNonTopInsert s (.insert i v) <;> simp [execOp, h, applyOp]
  · simp [execOp, isNonTopInsert, hi]

/-- Witness for C5 at the concrete stack `[1, 2]`, index 0, view 5. -/
theorem insert_at_length_is_push_witness :
    applyOp [1, 2] (.insert 2 5) = applyOp [1, 2] (.push 5) ∧
    applyOp [1, 2] (.insert 0 5) = [5, 1, 2] ∧
    (execOp [1, 2] (.insert 0 5)).1 = [5, 1, 2] ∧
    (execOp [1, 2] (.insert 0 5)).2 = [] := by
  have h := insert_at_length_is_push [1, 2] 0 5 (by decide)
  exact ⟨by simpa using h.1, by simpa using h.2.1, by simpa using h.2.2.1, h.2.2.2⟩

/-- C6: an overlay button handler that returns exactly `false` suppresses the
default auto-dismiss (the alert stays on the portal until dismissed
explicitly), while any other return value — `true`, `undefined` (returning
nothing), `null` or anything else — lets the overlay dismiss by default. -/
theorem alert_handler_return_false (p : Portal) (a : Nat) (ret : JSRet)
    (h : a ∉ p.stack) :
    (ret = .retFalse →
      ((p.present a).clickButton a ret) = p.present a ∧
      a ∈ ((p.present a).clickButton a ret).stack) ∧
    (ret ≠ .retFalse → a ∉ ((p.present a).clickButton a ret).stack) ∧
    (((p.present a).clickButton a .retFalse).dismiss a).stack = p.stack := by
  refine ⟨?_, ?_, ?_⟩
  · intro hr
    subst hr
    simp [Portal.clickButton, allowsDismiss, Portal.present]
  · intro hr
    have hd : allowsDismiss ret = true := by
      cases ret <;> simp_all [allowsDismiss]
    simp [Portal.clickButton, hd, Portal.dismiss, List.mem_filter]
  · have : (p.present a).clickButton a .retFalse = p.present a := by
      simp [Portal.clickButton, allowsDismiss]
    rw [this]
    simp [Portal.dismiss, Portal.present, List.filter_append]
    intro x hx hxa
    exact h (hxa ▸ hx)

/-- Witness for C6 at the empty portal, alert id 3, handler returning
`undefined`. -/
theorem alert_handler_return_false_witness :
    (JSRet.retUndefined = JSRet.retFalse →
      ((Portal.mk []).present 3).clickButton 3 .retUndefined = (Portal.mk []).present 3 ∧
      3 ∈ (((Portal.mk []).present 3).clickButton 3 .retUndefined).stack) ∧
    (JSRet.retUndefined ≠ JSRet.retFalse →
      3 ∉ (((Portal.mk []).present 3).clickButton 3 .retUndefined).stack) ∧
    ((((Portal.mk []).present 3).clickButton 3 .retFalse).dismiss 3).stack = [] :=
  alert_handler_return_false ⟨[]⟩ 3 .retUndefined (by decide)

/-- C7: push, setRoot or insert with a view reference that does not resolve
to a constructible page raises `InvalidViewError` synchronously, and the
operation is never queued: the stack and the queue are returned unchanged. -/
theorem invalid_view_sync_error (reg : Nat → Bool) (st : NavState) (v i : Nat)
    (hv : reg v = false) :
    requestChecked reg (.push v) st = (st, some .invalidView) ∧
    requestChecked reg (.setRoot v) st = (st, some .invalidView) ∧
    requestChecked reg (.insert i v) st = (st, some .invalidView) ∧
    (∀ op : NavOp, opConstructible reg op = false →
      (requestChecked reg op st).1.stack = st.stack ∧
      (requestChecked reg op st).1.queue = st.queue) := by
  refine ⟨?_, ?_, ?_, ?_⟩
  · simp [requestChecked, opConstructible, hv]
  · simp [requestChecked, opConstructible, hv]
  · simp [requestChecked, opConstructible, hv]
  · intro op hop
    simp [requestChecked, hop]

/-- Witness for C7 with an empty registry: pushing view 1 onto the idle root
stack `[0]` errors synchronously and changes nothing. -/
theorem invalid_view_sync_error_witness :
    requestChecked (fun _ => false) (.push 1) (NavState.idle [0])
      = (NavState.idle [0], some .invalidView) ∧
    requestChecked (fun _ => false) (.setRoot 1) (NavState.idle [0])
      = (NavState.idle [0], some .invalidView) ∧
    requestChecked (fun _ => false) (.insert 0 1) (NavState.idle [0])
      = (NavState.idle [0], some .invalidView) ∧
    (requestChecked (fun _ => false) (.push 1) (NavState.idle [0])).1.stack = [0] := by
  have h := invalid_view_sync_error (fun _ => false) (NavState.idle [0]) 1 0 rfl
  exact ⟨h.1, h.2.1, h.2.2.1, (h.2.2.2 (.push 1) rfl).1⟩

/-- C8: a write through the `checked` setter or `writeValue` stores the
normalized boolean, and emits `ionChange` exactly when that boolean differs
from the stored `_checked` and `ngAfterContentInit` has already run (set
`_init`); writing a value equal to the current state emits nothing and
leaves the checkbox unchanged. -/
theorem checkbox_ionchange_iff {α : Type} (isTrueProperty : α → Bool) (val : α)
    (cb : CheckboxState) :
    (cb.checkedSet isTrueProperty val)._checked = isTrueProperty val ∧
    (cb.writeValue isTrueProperty val)._checked = isTrueProperty val ∧
    (cb.checkedSet isTrueProperty val).ionChangeLog
      = cb.ionChangeLog
        ++ (if cb._init && (isTrueProperty val != cb._checked)
            then [isTrueProperty val] else []) ∧
    (cb.writeValue isTrueProperty val).ionChangeLog
      = cb.ionChangeLog
        ++ (if cb._init && (isTrueProperty val != cb._checked)
            then [isTrueProperty val] else []) ∧
    (isTrueProperty val = cb._checked →
      cb.checkedSet isTrueProperty val = cb ∧ cb.writeValue isTrueProperty val = cb) ∧
    (cb.ngAfterContentInit)._init = true := by
  rcases cb with ⟨c, ini, log⟩
  cases hb : isTrueProperty val <;> cases c <;> cases ini <;>
    simp_all [CheckboxState.checkedSet, CheckboxState.writeValue, CheckboxState.onChange,
      CheckboxState._setChecked, CheckboxState.ngAfterContentInit]

/-- Witness for C8: an initialized unchecked checkbox written with `true`
(identity normalization) becomes checked and emits once; writing the current
value changes nothing. -/
theorem checkbox_ionchange_iff_witness :
    ((CheckboxState.mk false true []).checkedSet (fun b : Bool => b) true)._checked = true ∧
    ((CheckboxState.mk false true []).checkedSet (fun b : Bool => b) true).ionChangeLog
      = [true] ∧
    (CheckboxState.mk false true []).writeValue (fun b : Bool => b) false
      = CheckboxState.mk false true [] := by
  have h := checkbox_ionchange_iff (fun b : Bool => b) true (CheckboxState.mk false true [])
  have h2 := checkbox_ionchange_iff (fun b : Bool => b) false (CheckboxState.mk false true [])
  exact ⟨h.1, by simpa using h.2.2.1, (h2.2.2.2.2.1 rfl).2⟩

/-- C9: the record returned by `getContentDimensions` satisfies the exact
integer relations contentBottom = contentTop + contentHeight, contentRight =
contentLeft + contentWidth, scrollBottom = scrollTop + scrollHeight, and
scrollRight = scrollLeft + scrollWidth. -/
theorem getContentDimensions_relations (e : ContentElems) :
    (getContentDimensions e).contentBottom
      = (getContentDimensions e).contentTop + (getContentDimensions e).contentHeight ∧
    (getContentDimensions e).contentRight
      = (getContentDimensions e).contentLeft + (getContentDimensions e).contentWidth ∧
    (getContentDimensions e).scrollBottom
      = (getContentDimensions e).scrollTop + (getContentDimensions e).scrollHeight ∧
    (getContentDimensions e).scrollRight
      = (getContentDimensions e).scrollLeft + (getContentDimensions e).scrollWidth := by
  refine ⟨rfl, rfl, rfl, rfl⟩

/-- C10: registering the same handler twice through `_addListener` equals
registering it once (the existing registration is removed before the new
one); with no scroll element `_addListener` returns undefined and registers
nothing; the returned remover removes exactly the registered (type, handler)
pair, leaving every other registration as it was; and `addScrollListener` is
`_addListener` at event type "scroll". -/
theorem addListener_dedup (c : ContentListeners) (t : String) (h : Nat) :
    ((c._addListener t h).1._addListener t h) = c._addListener t h ∧
    (c._scrollEle = none → c._addListener t h = (c, none)) ∧
    (∀ e : Elem, c._scrollEle = some e →
      (c._addListener t h).2 = some (t, h) ∧
      (t, h) ∉ ((c._addListener t h).1.runRemove (t, h)).listeners ∧
      (∀ p : String × Nat, p ≠ (t, h) →
        (p ∈ ((c._addListener t h).1.runRemove (t, h)).listeners ↔ p ∈ c.listeners))) ∧
    c.addScrollListener h = c._addListener "scroll" h := by
  rcases c with ⟨_ | e⟩
  · exact ⟨rfl, fun _ => rfl, fun e he => by simp at he, rfl⟩
  · refine ⟨?_, by simp, ?_, rfl⟩
    · simp [ContentListeners._addListener, removeEventListener_addEventListener]
    · intro e' he'
      have he : e' = e := by simpa using he'.symm
      subst he
      refine ⟨rfl, ?_, ?_⟩
      · simp [ContentListeners._addListener, ContentListeners.runRemove,
          removeEventListener_addEventListener, ContentListeners.listeners,
          Elem.removeEventListener, List.mem_filter]
      · intro p hp
        simp [ContentListeners._addListener, ContentListeners.runRemove,
          ContentListeners.listeners, Elem.addEventListener,
          Elem.removeEventListener, List.mem_filter, List.mem_append, hp]

/-- Witness for C10 on a content with an empty scroll element, type "scroll",
handler 0, checking in particular the unrelated pair ("touchstart", 1). -/
theorem addListener_dedup_witness :
    ((ContentListeners.mk (some ⟨[]⟩))._addListener "scroll" 0).1._addListener "scroll" 0
      = (ContentListeners.mk (some ⟨[]⟩))._addListener "scroll" 0 ∧
    ((ContentListeners.mk (some ⟨[]⟩))._addListener "scroll" 0).2 = some ("scroll", 0) ∧
    ("scroll", 0) ∉
      (((ContentListeners.mk (some ⟨[]⟩))._addListener "scroll" 0).1.runRemove
        ("scroll", 0)).listeners ∧
    (("touchstart", 1) ∈
        (((ContentListeners.mk (some ⟨[]⟩))._addListener "scroll" 0).1.runRemove
          ("scroll", 0)).listeners
      ↔ ("touchstart", 1) ∈ (ContentListeners.mk (some ⟨[]⟩)).listeners) ∧
    (ContentListeners.mk (some ⟨[]⟩)).addScrollListener 0
      = (ContentListeners.mk (some ⟨[]⟩))._addListener "scroll" 0 := by
  have h := addListener_dedup (ContentListeners.mk (some ⟨[]⟩)) "scroll" 0
  have h3 := h.2.2.1 ⟨[]⟩ rfl
  exact ⟨h.1, h3.1, h3.2.1, h3.2.2 ("touchstart", 1) (by decide), h.2.2.2⟩

end Ionic
